import Mathlib

/-!
Verification of the weather location-management / forecast-aggregation core.

Shallow embedding of the JavaScript server in `server/api/full.js` and
`server/api/test.js` of the Shubhankar4862/weather repository.

The persistent store (Postgres) is modelled as an explicit state value `DB`;
each SQL statement the handlers issue becomes a pure function on `DB`.  The
external weather provider (`axios.get`) is a function parameter
`String → Except String ProviderResp`: success returns the parsed response
document, failure an error message.  JavaScript loose truthiness on the
optional payload fields is modelled explicitly (`truthyS` / `truthyN`);
numbers are modelled as `Rat` (the claims never depend on float rounding,
only on presence / zero-ness and on which string template is chosen).
-/

set_option maxRecDepth 8000

namespace Weather

/-- JS truthiness of an optional string value: `undefined`/`null` and `""`
are falsy, every other string truthy. -/
def truthyS : Option String → Bool
  | none => false
  | some s => !s.isEmpty

/-- JS truthiness of an optional numeric value: `undefined`/`null` and `0`
are falsy, every other number truthy. -/
def truthyN : Option ℚ → Bool
  | none => false
  | some q => decide (q ≠ 0)

/-- The JS expression `v || null` for an optional string field. -/
def orNullS (v : Option String) : Option String :=
  if truthyS v then v else none

/-- The JS expression `v || null` for an optional numeric field. -/
def orNullN (v : Option ℚ) : Option ℚ :=
  if truthyN v then v else none

/-- A row of the `users` table: `users(id PK, username UNIQUE NOT NULL)`. -/
structure User where
  id : Nat
  username : String
deriving Repr, DecidableEq

/-- A row of the `locations` table:
`locations(id PK, user_id FK, zip, lat FLOAT, lon FLOAT)`. -/
structure Location where
  id : Nat
  userId : Nat
  zip : Option String
  lat : Option ℚ
  lon : Option ℚ
deriving Repr, DecidableEq

/-- The persistent store: both tables plus the two `SERIAL` sequences. -/
structure DB where
  users : List User
  locations : List Location
  nextUserId : Nat
  nextLocId : Nat
deriving Repr, DecidableEq

/-- `SELECT id FROM users WHERE username=$1` (first row, if any). -/
def selectUserId (db : DB) (username : String) : Option Nat :=
  (db.users.find? (fun u => u.username == username)).map User.id

/-- `SELECT * FROM locations WHERE user_id=$1`, in table order. -/
def selectLocationsOfUser (db : DB) (uid : Nat) : List Location :=
  db.locations.filter (fun l => l.userId == uid)

/-- `SELECT COUNT(*) FROM locations WHERE user_id=$1` (the handlers apply
`parseInt` to the textual count; we model the resulting number). -/
def countLocationsOfUser (db : DB) (uid : Nat) : Nat :=
  (selectLocationsOfUser db uid).length

/-- `INSERT INTO users (username) VALUES ($1) ON CONFLICT (username) DO NOTHING`. -/
def insertUserOnConflict (db : DB) (username : String) : DB :=
  if db.users.any (fun u => u.username == username) then db
  else
    { db with
      users := db.users ++ [⟨db.nextUserId, username⟩]
      nextUserId := db.nextUserId + 1 }

/-- `INSERT INTO locations (user_id, zip, lat, lon) VALUES ($1,$2,$3,$4)`. -/
def insertLocation (db : DB) (uid : Nat) (zip : Option String)
    (lat lon : Option ℚ) : DB :=
  { db with
    locations := db.locations ++ [⟨db.nextLocId, uid, zip, lat, lon⟩]
    nextLocId := db.nextLocId + 1 }

/-- Effect of `UPDATE locations SET zip=$1, lat=$2, lon=$3 WHERE id=$4`
on one row. -/
def updateLocationRow (i : Nat) (zip : Option String) (lat lon : Option ℚ)
    (l : Location) : Location :=
  if l.id == i then { l with zip := zip, lat := lat, lon := lon } else l

/-- `UPDATE locations SET zip=$1, lat=$2, lon=$3 WHERE id=$4`. -/
def sqlUpdateLocation (db : DB) (i : Nat) (zip : Option String)
    (lat lon : Option ℚ) : DB :=
  { db with locations := db.locations.map (updateLocationRow i zip lat lon) }

/-- `DELETE FROM locations WHERE id=$1`. -/
def sqlDeleteLocation (db : DB) (i : Nat) : DB :=
  { db with locations := db.locations.filter (fun l => !(l.id == i)) }

/-- An HTTP response: `ok` is a 200 JSON body, `err` a non-200 status with
its `error` message. -/
inductive Resp (α : Type) where
  | ok : α → Resp α
  | err : Nat → String → Resp α
deriving Repr, DecidableEq

/-- The `{ zip, lat, lon }` triple destructured both from a request body
(`full.js`) and from the `SELECT zip, lat, lon` projection used by the
weather route; absent fields are `none`. -/
structure LocPayload where
  zip : Option String
  lat : Option ℚ
  lon : Option ℚ
deriving Repr, DecidableEq

/-- Projection of a stored row to the shape `buildForecastUrl` consumes. -/
def projLoc (l : Location) : LocPayload :=
  ⟨l.zip, l.lat, l.lon⟩

/-- The two shape checks shared verbatim by `POST /location` (full.js
lines 91-92) and `PUT /location/:id` (lines 115-116):
`if (!zip && !(lat && lon))` then `'Either zip or lat/lon required'`;
`if (zip && (lat || lon))` then `'Provide only zip or lat/lon, not both'`.
Returns the 400 error message when the shape is rejected. -/
def validateLocationShape (p : LocPayload) : Option String :=
  if !truthyS p.zip && !(truthyN p.lat && truthyN p.lon) then
    some "Either zip or lat/lon required"
  else if truthyS p.zip && (truthyN p.lat || truthyN p.lon) then
    some "Provide only zip or lat/lon, not both"
  else
    none

/-- `buildForecastUrl` (full.js lines 39-49, identical in test.js):
coordinate mode when `lat && lon` is truthy, else zip mode with the
`,us` country default, else `throw new Error('Invalid location')`.
`apiKey` is the `OPEN_WEATHER_API_KEY` configuration value. -/
def buildForecastUrl (apiKey : String) (p : LocPayload) : Except String String :=
  if truthyN p.lat && truthyN p.lon then
    .ok ("https://api.openweathermap.org/data/2.5/forecast?lat="
      ++ toString (p.lat.getD 0) ++ "&lon=" ++ toString (p.lon.getD 0)
      ++ "&appid=" ++ apiKey ++ "&units=metric")
  else if truthyS p.zip then
    let z := p.zip.getD ""
    let zipCode := if z.toList.contains ',' then z else z ++ ",us"
    .ok ("https://api.openweathermap.org/data/2.5/forecast?zip=" ++ zipCode
      ++ "&appid=" ++ apiKey ++ "&units=metric")
  else
    .error "Invalid location"

/-- `POST /user` (full.js lines 54-68): reject empty username, otherwise
idempotent insert. -/
def postUser (db : DB) (username : String) : DB × Resp String :=
  if username = "" then (db, .err 400 "username required")
  else (insertUserOnConflict db username, .ok "user created or exists")

/-- `GET /api/user/create/:username` (test.js lines 245-258): same insert,
no emptiness check (the path parameter is always present). -/
def createUser (db : DB) (username : String) : DB × Resp String :=
  (insertUserOnConflict db username, .ok "user created or exists")

/-- `GET /locations?username=` (full.js lines 71-85): list the user's
stored rows verbatim. -/
def getLocations (db : DB) (username : String) : Resp (List Location) :=
  if username = "" then .err 400 "username required"
  else
    match selectUserId db username with
    | none => .err 404 "user not found"
    | some uid => .ok (selectLocationsOfUser db uid)

/-- `POST /location` (full.js lines 88-110): username check, shape checks,
user lookup, cap check (`parseInt(count) >= 5`), then
`INSERT ... VALUES ($1, zip || null, lat || null, lon || null)`. -/
def postLocation (db : DB) (username : String) (p : LocPayload) :
    DB × Resp String :=
  if username = "" then (db, .err 400 "username required")
  else
    match validateLocationShape p with
    | some e => (db, .err 400 e)
    | none =>
      match selectUserId db username with
      | none => (db, .err 404 "user not found")
      | some uid =>
        if countLocationsOfUser db uid ≥ 5 then
          (db, .err 400 "max 5 locations")
        else
          (insertLocation db uid (orNullS p.zip) (orNullN p.lat) (orNullN p.lon),
           .ok "location added")

/-- `GET /api/location/add/:username/zip/:zip` (test.js lines 279-299):
user lookup, cap check, then `INSERT INTO locations (user_id, zip)` with
the zip path parameter stored as given. -/
def addLocationZip (db : DB) (username zip : String) : DB × Resp String :=
  match selectUserId db username with
  | none => (db, .err 404 "user not found")
  | some uid =>
    if countLocationsOfUser db uid ≥ 5 then
      (db, .err 400 "max 5 locations")
    else
      (insertLocation db uid (some zip) none none, .ok "location added")

/-- `GET /api/location/add/:username/lat/:lat/lon/:lon` (test.js
lines 303-323). -/
def addLocationLatLon (db : DB) (username : String) (lat lon : ℚ) :
    DB × Resp String :=
  match selectUserId db username with
  | none => (db, .err 404 "user not found")
  | some uid =>
    if countLocationsOfUser db uid ≥ 5 then
      (db, .err 400 "max 5 locations")
    else
      (insertLocation db uid none (some lat) (some lon), .ok "location added")

/-- `PUT /location/:id` (full.js lines 113-128): shape checks, then
`UPDATE locations SET zip=$1, lat=$2, lon=$3 WHERE id=$4` with the
`|| null` defaults; no existence or ownership check, no cap check. -/
def putLocation (db : DB) (i : Nat) (p : LocPayload) : DB × Resp String :=
  match validateLocationShape p with
  | some e => (db, .err 400 e)
  | none =>
    (sqlUpdateLocation db i (orNullS p.zip) (orNullN p.lat) (orNullN p.lon),
     .ok "location updated")

/-- `GET /api/location/update/:id/zip/:zip` (test.js lines 327-340):
`UPDATE locations SET zip=$1, lat=NULL, lon=NULL WHERE id=$2`. -/
def updateLocationZip (db : DB) (i : Nat) (zip : String) : DB × Resp String :=
  (sqlUpdateLocation db i (some zip) none none, .ok "location updated")

/-- `GET /api/location/update/:id/lat/:lat/lon/:lon` (test.js
lines 344-357): `UPDATE locations SET lat=$1, lon=$2, zip=NULL WHERE id=$3`. -/
def updateLocationLatLon (db : DB) (i : Nat) (lat lon : ℚ) :
    DB × Resp String :=
  (sqlUpdateLocation db i none (some lat) (some lon), .ok "location updated")

/-- `DELETE /location/:id` (full.js lines 131-139) and
`GET /api/location/delete/:id` (test.js lines 361-371):
`DELETE FROM locations WHERE id=$1`, unconditional success message. -/
def deleteLocationById (db : DB) (i : Nat) : DB × Resp String :=
  (sqlDeleteLocation db i, .ok "location deleted")

/-- The optional `city` object of a provider response document. -/
structure City where
  name : Option String
  country : Option String
deriving Repr, DecidableEq

/-- A successful provider response document (`response.data`): an optional
`city` plus the rest of the document, passed through opaquely. -/
structure ProviderResp where
  city : Option City
  rest : String
deriving Repr, DecidableEq

/-- `response.data.city?.name || null`: optional chaining plus truthiness
collapse of the empty string to `null`. -/
def cityNameOf (r : ProviderResp) : Option String :=
  match r.city with
  | none => none
  | some c => if truthyS c.name then c.name else none

/-- `response.data.city?.country || null`. -/
def countryOf (r : ProviderResp) : Option String :=
  match r.city with
  | none => none
  | some c => if truthyS c.country then c.country else none

/-- JS template-literal rendering of a possibly-`null` value:
`null` renders as the string `"null"`. -/
def jsRender : Option String → String
  | none => "null"
  | some s => s

/-- The `place` template `` `${cityName}${country ? ', ' + country : ''}` ``
(full.js line 160, test.js line 392). -/
def composePlace (r : ProviderResp) : String :=
  jsRender (cityNameOf r) ++
    (match countryOf r with
     | some c => ", " ++ c
     | none => "")

/-- One element of the aggregated weather response. A success push carries
`place` and `forecast` and no `error`; a failure push carries only the
error message. -/
structure ForecastEntry where
  location : LocPayload
  place : Option String
  forecast : Option ProviderResp
  error : Option String
deriving Repr, DecidableEq

/-- One iteration of the weather loop (full.js lines 153-166): the `try`
block covers both `buildForecastUrl` (which may throw) and the provider
call; either failure is caught and pushed inline as
`{ location: loc, error: err.message }`. -/
def fetchForecast (apiKey : String)
    (provider : String → Except String ProviderResp) (loc : LocPayload) :
    ForecastEntry :=
  match buildForecastUrl apiKey loc with
  | .error e => ⟨loc, none, none, some e⟩
  | .ok url =>
    match provider url with
    | .error e => ⟨loc, none, none, some e⟩
    | .ok r => ⟨loc, some (composePlace r), some r, none⟩

/-- The SQL statements a handler can issue, recorded as a trace. -/
inductive Query where
  | selectUser (username : String)
  | selectLocations (userId : Nat)
  | countLocations (userId : Nat)
  | insertUser (username : String)
  | insertLocation (userId : Nat)
  | updateLocation (id : Nat)
  | deleteLocation (id : Nat)
deriving Repr, DecidableEq

/-- Whether a query is a pure lookup (a `SELECT`), as opposed to a
mutation of the store. -/
def lookupQuery : Query → Bool
  | .selectUser _ => true
  | .selectLocations _ => true
  | .countLocations _ => true
  | _ => false

/-- `GET /weather?username=` (full.js lines 142-172, identical logic in
test.js lines 375-404): username check, user lookup, projection of the
user's rows, then the sequential per-location fetch loop. Returns the
(unchanged) store, the trace of SQL statements issued, and the response. -/
def getWeather (db : DB) (apiKey : String)
    (provider : String → Except String ProviderResp) (username : String) :
    DB × List Query × Resp (List ForecastEntry) :=
  if username = "" then (db, [], .err 400 "username required")
  else
    match selectUserId db username with
    | none => (db, [Query.selectUser username], .err 404 "user not found")
    | some uid =>
      (db, [Query.selectUser username, Query.selectLocations uid],
       .ok (((selectLocationsOfUser db uid).map projLoc).map
         (fetchForecast apiKey provider)))

/-! ## Theorems -/

/-- Concatenation of strings is associative (helper for place/URL goals). -/
theorem string_append_assoc (a b c : String) : a ++ b ++ c = a ++ (b ++ c) := by
  cases a; cases b; cases c
  simp only [HAppend.hAppend, Append.append, String.append]
  exact congrArg String.mk (List.append_assoc _ _ _)

/-- C2: for every add or update payload, the shape validation rejects (with
an `InvalidLocationShape` 400 error) if and only if the payload has neither
a zip nor a complete lat/lon pair, or has both a zip and a coordinate
component; otherwise shape validation succeeds.  Presence of a field is the
source's loose truthiness (absent, empty string, and numeric zero are not
present). -/
theorem validateLocationShape_rejects_iff (p : LocPayload) :
    (validateLocationShape p).isSome = true ↔
      ((truthyS p.zip = false ∧
          ¬(truthyN p.lat = true ∧ truthyN p.lon = true)) ∨
       (truthyS p.zip = true ∧
          (truthyN p.lat = true ∨ truthyN p.lon = true))) := by
  unfold validateLocationShape
  cases hz : truthyS p.zip <;> cases hla : truthyN p.lat <;>
    cases hlo : truthyN p.lon <;> simp

/-- Witness for `validateLocationShape_rejects_iff`: the empty payload is
rejected. -/
theorem validateLocationShape_rejects_iff_witness :
    (validateLocationShape ⟨none, none, none⟩).isSome = true :=
  (validateLocationShape_rejects_iff ⟨none, none, none⟩).mpr
    (Or.inl ⟨rfl, by decide⟩)

/-- C4: the URL builder produces a coordinate-mode URL whenever both
coordinates are present (truthy), else a zip-mode URL where a zip without a
comma gets `,us` appended and a zip with a comma passes through unchanged;
`"94040"` normalizes to `"94040,us"`, `"94040,jp"` is unchanged,
`(37.4, -122.1)` yields a coordinate-mode URL with no `zip=` parameter;
with neither mode present the builder fails with `Invalid location`. -/
theorem buildForecastUrl_modes (apiKey : String) :
    (∀ p : LocPayload, truthyN p.lat = true → truthyN p.lon = true →
      buildForecastUrl apiKey p =
        .ok ("https://api.openweathermap.org/data/2.5/forecast?lat="
          ++ toString (p.lat.getD 0) ++ "&lon=" ++ toString (p.lon.getD 0)
          ++ "&appid=" ++ apiKey ++ "&units=metric")) ∧
    (∀ p : LocPayload, (truthyN p.lat && truthyN p.lon) = false →
      truthyS p.zip = true → ',' ∉ (p.zip.getD "").toList →
      buildForecastUrl apiKey p =
        .ok ("https://api.openweathermap.org/data/2.5/forecast?zip="
          ++ (p.zip.getD "" ++ ",us")
          ++ "&appid=" ++ apiKey ++ "&units=metric")) ∧
    (∀ p : LocPayload, (truthyN p.lat && truthyN p.lon) = false →
      truthyS p.zip = true → ',' ∈ (p.zip.getD "").toList →
      buildForecastUrl apiKey p =
        .ok ("https://api.openweathermap.org/data/2.5/forecast?zip="
          ++ p.zip.getD ""
          ++ "&appid=" ++ apiKey ++ "&units=metric")) ∧
    buildForecastUrl "k" ⟨some "94040", none, none⟩ =
      .ok "https://api.openweathermap.org/data/2.5/forecast?zip=94040,us&appid=k&units=metric" ∧
    buildForecastUrl "k" ⟨some "94040,jp", none, none⟩ =
      .ok "https://api.openweathermap.org/data/2.5/forecast?zip=94040,jp&appid=k&units=metric" ∧
    buildForecastUrl apiKey ⟨none, some 37.4, some (-122.1)⟩ =
      .ok ("https://api.openweathermap.org/data/2.5/forecast?lat="
        ++ toString ((37.4 : ℚ)) ++ "&lon=" ++ toString ((-122.1 : ℚ))
        ++ "&appid=" ++ apiKey ++ "&units=metric") ∧
    (∀ q lat lon, truthyN lat = true → truthyN lon = true →
      buildForecastUrl apiKey ⟨q, lat, lon⟩ =
        buildForecastUrl apiKey ⟨none, lat, lon⟩) ∧
    ¬ ("zip=".toList <:+:
        (match buildForecastUrl "k" ⟨none, some 37, some (-122)⟩ with
         | .ok u => u
         | .error e => e).toList) ∧
    (∀ p : LocPayload, truthyS p.zip = false →
      (truthyN p.lat && truthyN p.lon) = false →
      buildForecastUrl apiKey p = .error "Invalid location") := by
  have h374 : (37.4 : ℚ) ≠ 0 := by norm_num
  have h1221 : (-122.1 : ℚ) ≠ 0 := by norm_num
  refine ⟨?_, ?_, ?_, by rfl, by rfl, ?_, ?_, by decide, ?_⟩
  · intro p hla hlo
    simp [buildForecastUrl, hla, hlo]
  · intro p hll hz hc
    simp only [String.toList] at hc
    simp [buildForecastUrl, hll, hz, hc]
  · intro p hll hz hc
    simp only [String.toList] at hc
    simp [buildForecastUrl, hll, hz, hc]
  · simp [buildForecastUrl, truthyN, h374, h1221]
  · intro q lat lon hla hlo
    simp [buildForecastUrl, hla, hlo]
  · intro p hz hll
    simp [buildForecastUrl, hll, hz]

/-- Witness for `buildForecastUrl_modes` at a concrete coordinate pair and
a concrete comma-free zip. -/
theorem buildForecastUrl_modes_witness :
    buildForecastUrl "k" ⟨none, some 2, some 3⟩ =
      .ok ("https://api.openweathermap.org/data/2.5/forecast?lat="
        ++ toString ((⟨none, some 2, some 3⟩ : LocPayload).lat.getD 0)
        ++ "&lon=" ++ toString ((⟨none, some 2, some 3⟩ : LocPayload).lon.getD 0)
        ++ "&appid=" ++ "k" ++ "&units=metric") ∧
    buildForecastUrl "k" ⟨some "10001", none, none⟩ =
      .ok ("https://api.openweathermap.org/data/2.5/forecast?zip="
        ++ ((⟨some "10001", none, none⟩ : LocPayload).zip.getD "" ++ ",us")
        ++ "&appid=" ++ "k" ++ "&units=metric") :=
  ⟨(buildForecastUrl_modes "k").1 ⟨none, some 2, some 3⟩ (by decide) (by decide),
   (buildForecastUrl_modes "k").2.1 ⟨some "10001", none, none⟩ (by decide)
     (by decide) (by decide)⟩

/-- C5: for every successful provider response the composed place string is
`"<city>, <country>"` when both city name and country are known (truthy),
the bare city name when only the city is known, and the unknown marker
(the null rendering `"null"`) when neither is known; absent city or country
values never make the result element a failure — a successful provider call
always yields a success entry carrying `place` and the forecast document. -/
theorem composePlace_cases (apiKey : String)
    (provider : String → Except String ProviderResp) :
    (∀ n c extra, truthyS (some n) = true → truthyS (some c) = true →
      composePlace ⟨some ⟨some n, some c⟩, extra⟩ = n ++ ", " ++ c) ∧
    (∀ n extra, truthyS (some n) = true →
      composePlace ⟨some ⟨some n, none⟩, extra⟩ = n) ∧
    (∀ n extra, truthyS (some n) = true →
      composePlace ⟨some ⟨some n, some ""⟩, extra⟩ = n) ∧
    (∀ extra, composePlace ⟨none, extra⟩ = "null") ∧
    (∀ extra, composePlace ⟨some ⟨none, none⟩, extra⟩ = "null") ∧
    (∀ loc url r, buildForecastUrl apiKey loc = .ok url →
      provider url = .ok r →
      fetchForecast apiKey provider loc =
        ⟨loc, some (composePlace r), some r, none⟩) := by
  refine ⟨?_, ?_, ?_, ?_, ?_, ?_⟩
  · intro n c extra hn hc
    simp only [truthyS, Bool.not_eq_true', Bool.not_eq_false] at hn hc
    simp [composePlace, cityNameOf, countryOf, jsRender, truthyS, hn, hc,
      string_append_assoc]
  · intro n extra hn
    simp only [truthyS, Bool.not_eq_true', Bool.not_eq_false] at hn
    simp [composePlace, cityNameOf, countryOf, jsRender, truthyS, hn]
  · intro n extra hn
    simp only [truthyS, Bool.not_eq_true', Bool.not_eq_false] at hn
    have he : "".isEmpty = true := rfl
    simp [composePlace, cityNameOf, countryOf, jsRender, truthyS, hn, he]
  · intro extra
    simp [composePlace, cityNameOf, countryOf, jsRender]
  · intro extra
    simp [composePlace, cityNameOf, countryOf, jsRender, truthyS]
  · intro loc url r hb hp
    simp [fetchForecast, hb, hp]

/-- Witness for `composePlace_cases`: the Tokyo/JP example and a successful
fetch for a concrete location. -/
theorem composePlace_cases_witness :
    composePlace ⟨some ⟨some "Tokyo", some "JP"⟩, "doc"⟩ =
      "Tokyo" ++ ", " ++ "JP" ∧
    composePlace ⟨some ⟨some "Tokyo", none⟩, "doc"⟩ = "Tokyo" ∧
    fetchForecast "k"
        (fun _ => .ok ⟨some ⟨some "Tokyo", some "JP"⟩, "doc"⟩)
        ⟨some "94040", none, none⟩ =
      ⟨⟨some "94040", none, none⟩,
       some (composePlace ⟨some ⟨some "Tokyo", some "JP"⟩, "doc"⟩),
       some ⟨some ⟨some "Tokyo", some "JP"⟩, "doc"⟩, none⟩ :=
  ⟨(composePlace_cases "k" (fun _ => .error "e")).1 "Tokyo" "JP" "doc"
     (by decide) (by decide),
   (composePlace_cases "k" (fun _ => .error "e")).2.1 "Tokyo" "doc" (by decide),
   (composePlace_cases "k"
       (fun _ => .ok ⟨some ⟨some "Tokyo", some "JP"⟩, "doc"⟩)).2.2.2.2.2
     ⟨some "94040", none, none⟩
     "https://api.openweathermap.org/data/2.5/forecast?zip=94040,us&appid=k&units=metric"
     ⟨some ⟨some "Tokyo", some "JP"⟩, "doc"⟩ (by rfl) (by rfl)⟩

/-- A store with one user owning three zip-mode locations, used to witness
the aggregation claims (the spec's 3-location scenario). -/
def dbThree : DB :=
  ⟨[⟨1, "bob"⟩],
   [⟨1, 1, some "94040", none, none⟩,
    ⟨2, 1, some "bad", none, none⟩,
    ⟨3, 1, some "10001", none, none⟩], 2, 4⟩

/-- A provider that fails exactly on the URL built for the second location
of `dbThree` and succeeds elsewhere. -/
def providerThree : String → Except String ProviderResp := fun url =>
  if url = "https://api.openweathermap.org/data/2.5/forecast?zip=bad,us&appid=k&units=metric"
  then .error "Request failed with status code 404"
  else .ok ⟨some ⟨some "City", some "US"⟩, "doc"⟩

/-- C1: the weather aggregation returns one Forecast Result per stored
location, in input order (element `i` of the response is the fetch of
location `i`); a provider failure (or a URL-builder failure) for one
location becomes an inline error element carrying the error message and no
place/forecast, the other elements are unaffected, and the response is an
`ok` list — never a whole-request failure — regardless of the provider. -/
theorem getWeather_per_location (db : DB) (apiKey : String)
    (provider : String → Except String ProviderResp) (username : String)
    (uid : Nat) (hu : username ≠ "")
    (hfind : selectUserId db username = some uid) :
    ((getWeather db apiKey provider username).2.2 =
      Resp.ok (((selectLocationsOfUser db uid).map projLoc).map
        (fetchForecast apiKey provider))) ∧
    (∀ locs : List LocPayload,
      (locs.map (fetchForecast apiKey provider)).length = locs.length) ∧
    (∀ (locs : List LocPayload) (i : Nat),
      (locs.map (fetchForecast apiKey provider))[i]? =
        (locs[i]?).map (fetchForecast apiKey provider)) ∧
    (∀ loc url msg, buildForecastUrl apiKey loc = .ok url →
      provider url = .error msg →
      fetchForecast apiKey provider loc = ⟨loc, none, none, some msg⟩) ∧
    (∀ loc msg, buildForecastUrl apiKey loc = .error msg →
      fetchForecast apiKey provider loc = ⟨loc, none, none, some msg⟩) := by
  refine ⟨?_, ?_, ?_, ?_, ?_⟩
  · simp [getWeather, hu, hfind]
  · intro locs
    simp
  · intro locs i
    simp [List.getElem?_map]
  · intro loc url msg hb hp
    simp [fetchForecast, hb, hp]
  · intro loc msg hb
    simp [fetchForecast, hb]

/-- Witness for `getWeather_per_location`: three locations, the provider
failing on the second; the response is a 3-element ordered list whose
middle element carries the error inline and whose outer elements carry
forecasts. -/
theorem getWeather_per_location_witness :
    (getWeather dbThree "k" providerThree "bob").2.2 =
      Resp.ok
        [⟨⟨some "94040", none, none⟩, some "City, US",
          some ⟨some ⟨some "City", some "US"⟩, "doc"⟩, none⟩,
         ⟨⟨some "bad", none, none⟩, none, none,
          some "Request failed with status code 404"⟩,
         ⟨⟨some "10001", none, none⟩, some "City, US",
          some ⟨some ⟨some "City", some "US"⟩, "doc"⟩, none⟩] := by
  have h := (getWeather_per_location dbThree "k" providerThree "bob" 1
    (by decide) (by rfl)).1
  rw [h]
  rfl

/-- C9: the weather aggregation is read-only: the store it returns is the
store it was given (users and locations unchanged), and every SQL statement
it issues is a lookup — for every user, every store state, and every
behaviour of the provider. -/
theorem getWeather_readOnly (db : DB) (apiKey : String)
    (provider : String → Except String ProviderResp) (username : String) :
    (getWeather db apiKey provider username).1 = db ∧
    (getWeather db apiKey provider username).1.users = db.users ∧
    (getWeather db apiKey provider username).1.locations = db.locations ∧
    (∀ q ∈ (getWeather db apiKey provider username).2.1,
      lookupQuery q = true) := by
  have h1 : (getWeather db apiKey provider username).1 = db := by
    unfold getWeather
    by_cases h : username = ""
    · simp [h]
    · cases hf : selectUserId db username <;> simp [h, hf]
  refine ⟨h1, by rw [h1], by rw [h1], ?_⟩
  intro q hq
  unfold getWeather at hq
  by_cases h : username = ""
  · simp [h] at hq
  · cases hf : selectUserId db username with
    | none =>
      simp [h, hf] at hq
      subst hq
      rfl
    | some uid =>
      simp [h, hf] at hq
      rcases hq with hq | hq <;> subst hq <;> rfl

/-- Witness for `getWeather_readOnly`: the store is unchanged on the
concrete three-location scenario and the first issued query is a lookup. -/
theorem getWeather_readOnly_witness :
    (getWeather dbThree "k" providerThree "bob").1 = dbThree ∧
    lookupQuery (Query.selectUser "bob") = true :=
  ⟨(getWeather_readOnly dbThree "k" providerThree "bob").1,
   (getWeather_readOnly dbThree "k" providerThree "bob").2.2.2
     (Query.selectUser "bob") (by decide)⟩

/-- C3: an add-location attempt fails with the cap error exactly when the
user already has at least 5 locations; with 4 or fewer and a valid payload
it succeeds inserting one location (raising the user's count by one); the
cap is checked on creation only — the update operation performs no cap
check and succeeds on any store whatsoever. -/
theorem postLocation_cap (db : DB) (username : String) (p : LocPayload)
    (uid : Nat) (hu : username ≠ "")
    (hv : validateLocationShape p = none)
    (hfind : selectUserId db username = some uid) :
    (countLocationsOfUser db uid ≥ 5 →
      postLocation db username p = (db, .err 400 "max 5 locations")) ∧
    (countLocationsOfUser db uid ≤ 4 →
      (postLocation db username p).2 = .ok "location added" ∧
      (postLocation db username p).1.locations =
        db.locations ++
          [⟨db.nextLocId, uid, orNullS p.zip, orNullN p.lat, orNullN p.lon⟩] ∧
      countLocationsOfUser (postLocation db username p).1 uid =
        countLocationsOfUser db uid + 1) ∧
    (∀ (other : DB) (i : Nat),
      putLocation other i p =
        (sqlUpdateLocation other i (orNullS p.zip) (orNullN p.lat)
          (orNullN p.lon), .ok "location updated")) ∧
    (∀ zipArg, countLocationsOfUser db uid ≥ 5 →
      addLocationZip db username zipArg = (db, .err 400 "max 5 locations")) ∧
    (∀ zipArg, countLocationsOfUser db uid ≤ 4 →
      (addLocationZip db username zipArg).2 = .ok "location added") ∧
    (∀ (other : DB) (i : Nat) (zq : String),
      (updateLocationZip other i zq).2 = .ok "location updated") ∧
    (∀ (other : DB) (i : Nat) (a b : ℚ),
      (updateLocationLatLon other i a b).2 = .ok "location updated") := by
  refine ⟨?_, ?_, ?_, ?_, ?_, ?_, ?_⟩
  · intro h5
    simp [postLocation, hu, hv, hfind, h5]
  · intro h4
    have h5 : ¬ countLocationsOfUser db uid ≥ 5 := by omega
    refine ⟨?_, ?_, ?_⟩
    · simp [postLocation, hu, hv, hfind, h5]
    · simp [postLocation, hu, hv, hfind, h5, insertLocation]
    · have h5' : ¬ 5 ≤ (List.filter (fun l => l.userId == uid)
          db.locations).length := by
        simpa [countLocationsOfUser, selectLocationsOfUser] using h5
      simp [postLocation, hu, hv, hfind, h5', insertLocation,
        countLocationsOfUser, selectLocationsOfUser, List.filter_append]
  · intro other i
    simp [putLocation, hv]
  · intro zipArg h5
    simp [addLocationZip, hfind, h5]
  · intro zipArg h4
    have h5 : ¬ countLocationsOfUser db uid ≥ 5 := by omega
    simp [addLocationZip, hfind, h5]
  · intro other i zq
    rfl
  · intro other i a b
    rfl

/-- A store whose single user `ann` already owns five locations. -/
def dbFive : DB :=
  ⟨[⟨1, "ann"⟩],
   [⟨1, 1, some "1", none, none⟩, ⟨2, 1, some "2", none, none⟩,
    ⟨3, 1, some "3", none, none⟩, ⟨4, 1, some "4", none, none⟩,
    ⟨5, 1, some "5", none, none⟩], 2, 6⟩

/-- Witness for `postLocation_cap`: the sixth add for `ann` is rejected
with the cap error; an add for `bob` (three locations) succeeds. -/
theorem postLocation_cap_witness :
    postLocation dbFive "ann" ⟨some "94040", none, none⟩ =
      (dbFive, .err 400 "max 5 locations") ∧
    (postLocation dbThree "bob" ⟨some "94040", none, none⟩).2 =
      .ok "location added" :=
  ⟨(postLocation_cap dbFive "ann" ⟨some "94040", none, none⟩ 1
      (by decide) (by decide) (by rfl)).1 (by decide),
   ((postLocation_cap dbThree "bob" ⟨some "94040", none, none⟩ 1
      (by decide) (by decide) (by rfl)).2.1 (by decide)).1⟩

/-- C7: user creation is idempotent — after one call there is exactly one
stored record with the given username, and a second call is a success
no-op leaving the store untouched. -/
theorem postUser_idempotent (db : DB) (username : String)
    (hu : username ≠ "")
    (hinv : (db.users.filter (fun u => u.username == username)).length ≤ 1) :
    (postUser db username).2 = .ok "user created or exists" ∧
    ((postUser db username).1.users.filter
      (fun u => u.username == username)).length = 1 ∧
    postUser (postUser db username).1 username =
      ((postUser db username).1, .ok "user created or exists") ∧
    createUser (createUser db username).1 username =
      ((createUser db username).1, .ok "user created or exists") := by
  have hins : (postUser db username).1 = insertUserOnConflict db username := by
    simp [postUser, hu]
  have hmem : (insertUserOnConflict db username).users.any
      (fun u => u.username == username) = true := by
    unfold insertUserOnConflict
    by_cases han : db.users.any (fun u => u.username == username) = true
    · simp [han]
    · simp only [Bool.not_eq_true] at han
      simp [han, List.any_append]
  have hstep : ∀ d : DB, d.users.any (fun u => u.username == username) = true →
      insertUserOnConflict d username = d := by
    intro d hd
    unfold insertUserOnConflict
    simp [hd]
  refine ⟨by simp [postUser, hu], ?_, ?_, ?_⟩
  · rw [hins]
    unfold insertUserOnConflict
    by_cases han : db.users.any (fun u => u.username == username) = true
    · simp only [han, if_true]
      obtain ⟨u, hmem, hbeq⟩ := List.any_eq_true.mp han
      have hu_mem : u ∈ db.users.filter (fun u => u.username == username) :=
        List.mem_filter.mpr ⟨hmem, hbeq⟩
      have hpos := List.length_pos_of_mem hu_mem
      omega
    · simp only [Bool.not_eq_true] at han
      simp only [han, Bool.false_eq_true, if_false]
      have hnil : db.users.filter (fun u => u.username == username) = [] := by
        rw [List.filter_eq_nil_iff]
        intro u hmem
        exact (List.any_eq_false.mp han) u hmem
      simp [List.filter_append, hnil]
  · rw [hins]
    simp [postUser, hu, hstep _ hmem]
  · simp [createUser, hstep _ hmem]

/-- Witness for `postUser_idempotent` on an initially empty store. -/
theorem postUser_idempotent_witness :
    (postUser ⟨[], [], 1, 1⟩ "bob").2 = .ok "user created or exists" ∧
    ((postUser ⟨[], [], 1, 1⟩ "bob").1.users.filter
      (fun u => u.username == "bob")).length = 1 ∧
    postUser (postUser ⟨[], [], 1, 1⟩ "bob").1 "bob" =
      ((postUser ⟨[], [], 1, 1⟩ "bob").1, .ok "user created or exists") ∧
    createUser (createUser ⟨[], [], 1, 1⟩ "bob").1 "bob" =
      ((createUser ⟨[], [], 1, 1⟩ "bob").1, .ok "user created or exists") :=
  postUser_idempotent ⟨[], [], 1, 1⟩ "bob" (by decide) (by decide)

/-- C8: when no stored location has the given id, the update (given a
well-formed payload, in both route styles) and the delete both succeed with
the same success messages as for an existing id — `location updated` /
`location deleted` — and leave the store unchanged. -/
theorem missing_id_noop (db : DB) (i : Nat) (p : LocPayload)
    (hv : validateLocationShape p = none)
    (hmiss : ∀ l ∈ db.locations, l.id ≠ i) :
    putLocation db i p = (db, .ok "location updated") ∧
    (∀ z, updateLocationZip db i z = (db, .ok "location updated")) ∧
    (∀ a b, updateLocationLatLon db i a b = (db, .ok "location updated")) ∧
    deleteLocationById db i = (db, .ok "location deleted") := by
  have hupd : ∀ z la lo, sqlUpdateLocation db i z la lo = db := by
    intro z la lo
    unfold sqlUpdateLocation
    have hmap : db.locations.map (updateLocationRow i z la lo) =
        db.locations := by
      rw [show db.locations = db.locations.map id from (List.map_id _).symm]
      rw [List.map_map]
      apply List.map_congr_left
      intro l hl
      have : (l.id == i) = false := beq_eq_false_iff_ne.mpr (hmiss l hl)
      simp [updateLocationRow, this]
    rw [hmap]
  have hdel : sqlDeleteLocation db i = db := by
    unfold sqlDeleteLocation
    have hfil : db.locations.filter (fun l => !(l.id == i)) = db.locations := by
      apply List.filter_eq_self.mpr
      intro l hl
      simpa using beq_eq_false_iff_ne.mpr (hmiss l hl)
    rw [hfil]
  refine ⟨?_, ?_, ?_, ?_⟩
  · simp [putLocation, hv, hupd]
  · intro z
    simp [updateLocationZip, hupd]
  · intro a b
    simp [updateLocationLatLon, hupd]
  · simp [deleteLocationById, hdel]

/-- Witness for `missing_id_noop`: id 99 does not exist in the
three-location store; update and delete both report success and change
nothing. -/
theorem missing_id_noop_witness :
    putLocation dbThree 99 ⟨some "10001", none, none⟩ =
      (dbThree, .ok "location updated") ∧
    deleteLocationById dbThree 99 = (dbThree, .ok "location deleted") :=
  ⟨(missing_id_noop dbThree 99 ⟨some "10001", none, none⟩ (by decide)
      (by decide)).1,
   (missing_id_noop dbThree 99 ⟨some "10001", none, none⟩ (by decide)
      (by decide)).2.2.2⟩

/-- C10: a zip-mode add stores the zip string verbatim — the `,us` default
is not applied at write time (in either route style); it is applied only
when the forecast URL is built; and listing the user's locations returns
the stored record with the zip exactly as supplied. -/
theorem zip_stored_verbatim (db : DB) (username z : String) (uid : Nat)
    (hu : username ≠ "") (hz : z ≠ "") (hnc : ',' ∉ z.toList)
    (hfind : selectUserId db username = some uid)
    (hcap : countLocationsOfUser db uid ≤ 4) :
    ((postLocation db username ⟨some z, none, none⟩).1.locations =
      db.locations ++ [⟨db.nextLocId, uid, some z, none, none⟩]) ∧
    (addLocationZip db username z =
      ({ db with
          locations := db.locations ++
            [⟨db.nextLocId, uid, some z, none, none⟩],
          nextLocId := db.nextLocId + 1 }, .ok "location added")) ∧
    (∀ apiKey, buildForecastUrl apiKey ⟨some z, none, none⟩ =
      .ok ("https://api.openweathermap.org/data/2.5/forecast?zip="
        ++ (z ++ ",us") ++ "&appid=" ++ apiKey ++ "&units=metric")) ∧
    (∃ entries,
      getLocations (postLocation db username ⟨some z, none, none⟩).1
          username = .ok entries ∧
      entries.getLast? = some ⟨db.nextLocId, uid, some z, none, none⟩) := by
  have hze : z.isEmpty = false := by
    rw [Bool.eq_false_iff]
    intro h
    exact hz ((String.isEmpty_iff z).mp h)
  have hvz : validateLocationShape ⟨some z, none, none⟩ = none := by
    simp [validateLocationShape, truthyS, truthyN, hze]
  have h5 : ¬ countLocationsOfUser db uid ≥ 5 := by omega
  have hlt : countLocationsOfUser db uid < 5 := by omega
  have h5' : ¬ 5 ≤ (List.filter (fun l => l.userId == uid)
      db.locations).length := by
    simpa [countLocationsOfUser, selectLocationsOfUser] using h5
  have horz : orNullS (some z) = some z := by
    simp [orNullS, truthyS, hze]
  have hpost : postLocation db username ⟨some z, none, none⟩ =
      ({ db with
          locations := db.locations ++
            [⟨db.nextLocId, uid, some z, none, none⟩],
          nextLocId := db.nextLocId + 1 }, .ok "location added") := by
    simp [postLocation, hu, hvz, hfind, h5, h5', hlt, insertLocation, horz,
      orNullN, truthyN]
  refine ⟨by rw [hpost], ?_, ?_, ?_⟩
  · simp [addLocationZip, hfind, h5, h5', hlt, insertLocation]
  · intro apiKey
    have hnc' : ',' ∉ z.data := by simpa [String.toList] using hnc
    simp [buildForecastUrl, truthyS, truthyN, hze, hnc']
  · rw [hpost]
    have hfind1 : selectUserId
        { db with
          locations := db.locations ++
            [⟨db.nextLocId, uid, some z, none, none⟩],
          nextLocId := db.nextLocId + 1 } username = some uid := hfind
    refine ⟨List.filter (fun l => l.userId == uid)
        (db.locations ++ [⟨db.nextLocId, uid, some z, none, none⟩]), ?_, ?_⟩
    · simp [getLocations, hu, hfind1, selectLocationsOfUser]
    · rw [List.filter_append]
      have hone : List.filter (fun l => l.userId == uid)
          [(⟨db.nextLocId, uid, some z, none, none⟩ : Location)] =
          [⟨db.nextLocId, uid, some z, none, none⟩] := by
        simp
      rw [hone]
      simp [List.getLast?_concat]

/-- Witness for `zip_stored_verbatim`: adding `"94040"` stores `"94040"`,
not `"94040,us"`; the URL builder is where `,us` appears. -/
theorem zip_stored_verbatim_witness :
    (postLocation ⟨[⟨1, "bob"⟩], [], 2, 1⟩ "bob"
        ⟨some "94040", none, none⟩).1.locations =
      [⟨1, 1, some "94040", none, none⟩] ∧
    buildForecastUrl "k" ⟨some "94040", none, none⟩ =
      .ok ("https://api.openweathermap.org/data/2.5/forecast?zip="
        ++ ("94040" ++ ",us") ++ "&appid=" ++ "k" ++ "&units=metric") :=
  ⟨(zip_stored_verbatim ⟨[⟨1, "bob"⟩], [], 2, 1⟩ "bob" "94040" 1 (by decide)
      (by decide) (by decide) (by rfl) (by decide)).1,
   (zip_stored_verbatim ⟨[⟨1, "bob"⟩], [], 2, 1⟩ "bob" "94040" 1 (by decide)
      (by decide) (by decide) (by rfl) (by decide)).2.2.1 "k"⟩

/-- C6: the update operation replaces the mode columns wholesale, so a
zip-mode update clears both coordinate fields and a coordinate-mode update
clears the zip field (in both route styles, at the store level and at the
row level); consequently add-zip → update-to-coords → update-back-to-zip
restores the originally stored record. -/
theorem update_mode_roundtrip :
    (∀ (db : DB) (i : Nat) (p : LocPayload),
      truthyS p.zip = true → truthyN p.lat = false → truthyN p.lon = false →
      putLocation db i p =
        (sqlUpdateLocation db i p.zip none none, .ok "location updated")) ∧
    (∀ (db : DB) (i : Nat) (p : LocPayload),
      truthyS p.zip = false → truthyN p.lat = true → truthyN p.lon = true →
      putLocation db i p =
        (sqlUpdateLocation db i none p.lat p.lon, .ok "location updated")) ∧
    (∀ (db : DB) (i : Nat) (z : String),
      updateLocationZip db i z =
        (sqlUpdateLocation db i (some z) none none, .ok "location updated")) ∧
    (∀ (db : DB) (i : Nat) (a b : ℚ),
      updateLocationLatLon db i a b =
        (sqlUpdateLocation db i none (some a) (some b),
         .ok "location updated")) ∧
    (∀ (l : Location) (i : Nat) (z : String) (a b : ℚ), l.id = i →
      updateLocationRow i (some z) none none l =
        ⟨l.id, l.userId, some z, none, none⟩ ∧
      updateLocationRow i none (some a) (some b) l =
        ⟨l.id, l.userId, none, some a, some b⟩) ∧
    (∀ (db : DB) (username z : String) (a b : ℚ) (uid : Nat),
      username ≠ "" → z ≠ "" → a ≠ 0 → b ≠ 0 →
      selectUserId db username = some uid →
      countLocationsOfUser db uid ≤ 4 →
      (putLocation
          (putLocation (postLocation db username ⟨some z, none, none⟩).1
            db.nextLocId ⟨none, some a, some b⟩).1
          db.nextLocId ⟨some z, none, none⟩).1.locations.getLast? =
        (postLocation db username
          ⟨some z, none, none⟩).1.locations.getLast? ∧
      (postLocation db username ⟨some z, none, none⟩).1.locations.getLast? =
        some ⟨db.nextLocId, uid, some z, none, none⟩) := by
  refine ⟨?_, ?_, ?_, ?_, ?_, ?_⟩
  · intro db i p hz hla hlo
    have hv : validateLocationShape p = none := by
      simp [validateLocationShape, hz, hla, hlo]
    have horz : orNullS p.zip = p.zip := by simp [orNullS, hz]
    simp [putLocation, hv, horz, orNullN, hla, hlo]
  · intro db i p hz hla hlo
    have hv : validateLocationShape p = none := by
      simp [validateLocationShape, hz, hla, hlo]
    have horla : orNullN p.lat = p.lat := by simp [orNullN, hla]
    have horlo : orNullN p.lon = p.lon := by simp [orNullN, hlo]
    simp [putLocation, hv, horla, horlo, orNullS, hz]
  · intro db i z
    rfl
  · intro db i a b
    rfl
  · intro l i z a b hid
    constructor <;> simp [updateLocationRow, hid]
  · intro db username z a b uid hu hz ha hb hfind hcap
    have hze : z.isEmpty = false := by
      rw [Bool.eq_false_iff]
      intro h
      exact hz ((String.isEmpty_iff z).mp h)
    have hvz : validateLocationShape ⟨some z, none, none⟩ = none := by
      simp [validateLocationShape, truthyS, truthyN, hze]
    have hvll : validateLocationShape ⟨none, some a, some b⟩ = none := by
      simp [validateLocationShape, truthyS, truthyN, ha, hb]
    have h5 : ¬ countLocationsOfUser db uid ≥ 5 := by omega
    have hlt : countLocationsOfUser db uid < 5 := by omega
    have h5' : ¬ 5 ≤ (List.filter (fun l => l.userId == uid)
        db.locations).length := by
      simpa [countLocationsOfUser, selectLocationsOfUser] using h5
    have horz : orNullS (some z) = some z := by
      simp [orNullS, truthyS, hze]
    have horna : orNullN (some a) = some a := by simp [orNullN, truthyN, ha]
    have hornb : orNullN (some b) = some b := by simp [orNullN, truthyN, hb]
    have hpost : postLocation db username ⟨some z, none, none⟩ =
        ({ db with
            locations := db.locations ++
              [⟨db.nextLocId, uid, some z, none, none⟩],
            nextLocId := db.nextLocId + 1 }, .ok "location added") := by
      simp [postLocation, hu, hvz, hfind, h5, h5', hlt, insertLocation, horz,
        orNullN, truthyN]
    rw [hpost]
    have hput2 : ∀ d : DB, putLocation d db.nextLocId ⟨none, some a, some b⟩ =
        (sqlUpdateLocation d db.nextLocId none (some a) (some b),
         .ok "location updated") := by
      intro d
      simp [putLocation, hvll, horna, hornb, orNullS, truthyS]
    have hput3 : ∀ d : DB, putLocation d db.nextLocId ⟨some z, none, none⟩ =
        (sqlUpdateLocation d db.nextLocId (some z) none none,
         .ok "location updated") := by
      intro d
      simp [putLocation, hvz, horz, orNullN, truthyN]
    rw [hput2, hput3]
    constructor
    · simp [sqlUpdateLocation, updateLocationRow, List.map_append,
        List.getLast?_concat]
    · simp [List.getLast?_concat]

/-- Witness for `update_mode_roundtrip`: add zip `"94040"`, update to
coordinates `(1, 2)`, update back to `"94040"`; the stored record is
restored. -/
theorem update_mode_roundtrip_witness :
    (putLocation
        (putLocation (postLocation ⟨[⟨1, "bob"⟩], [], 2, 1⟩ "bob"
            ⟨some "94040", none, none⟩).1 1 ⟨none, some 1, some 2⟩).1 1
        ⟨some "94040", none, none⟩).1.locations.getLast? =
      (postLocation ⟨[⟨1, "bob"⟩], [], 2, 1⟩ "bob"
        ⟨some "94040", none, none⟩).1.locations.getLast? ∧
    (postLocation ⟨[⟨1, "bob"⟩], [], 2, 1⟩ "bob"
        ⟨some "94040", none, none⟩).1.locations.getLast? =
      some ⟨1, 1, some "94040", none, none⟩ :=
  update_mode_roundtrip.2.2.2.2.2 ⟨[⟨1, "bob"⟩], [], 2, 1⟩ "bob" "94040" 1 2 1
    (by decide) (by decide) (by decide) (by decide) (by rfl) (by decide)

end Weather
